import Mathlib

/-!
Verification of the `k8s-exploration` infrastructure-as-code repository.

The development shallowly embeds the repository's own logic: configuration
value resolution, subnet CIDR derivation, tier/name/selector derivation, and
the declarative resource sets built by the two workload-deployer programs
(`foundation/gitops/pulumi_deploy/__main__.py` and
`foundation/applications/day-service/pulumi/__main__.py`) and by the
infrastructure program (`foundation/pulumi/__main__.py`).
-/

namespace K8sExploration

/-! ## Configuration resolution

The Python programs resolve configuration values with the truthiness-based
fallback idiom `config.get_xxx(key) or default`.  Python `or` returns the
right operand whenever the left one is falsy, i.e. `None`, `False`, `0` or
the empty string. -/

/-- `config.get_bool(key) or default` : a stored `False` is falsy, so it
falls through to the default. -/
def orBool (stored : Option Bool) (default : Bool) : Bool :=
  match stored with
  | some b => if b then b else default
  | none => default

/-- `config.get_int(key) or default` : a stored `0` is falsy, so it falls
through to the default. -/
def orInt (stored : Option Int) (default : Int) : Int :=
  match stored with
  | some n => if n = 0 then default else n
  | none => default

/-- `config.get(key) or default` : a stored empty string is falsy, so it
falls through to the default. -/
def orStr (stored : Option String) (default : String) : String :=
  match stored with
  | some s => if s = "" then default else s
  | none => default

/-- `use_spot = config.get_bool("use_spot") or True`
(`foundation/pulumi/__main__.py`, line 32). -/
def useSpotResolved (stored : Option Bool) : Bool :=
  orBool stored true

/-- `min_nodes = config.get_int("min_nodes") or 1`
(`foundation/pulumi/__main__.py`, line 28). -/
def minNodesResolved (stored : Option Int) : Int :=
  orInt stored 1

/-- `feature_new_ui = config.get_bool("feature_new_ui") or True`
(`foundation/gitops/pulumi_deploy/__main__.py`, line 106). -/
def featureNewUiResolved (stored : Option Bool) : Bool :=
  orBool stored true

/-- `use_stack_reference = config.get_bool("use_stack_reference")` followed
by `if use_stack_reference is None: use_stack_reference = True`
(`foundation/gitops/pulumi_deploy/__main__.py`, lines 30-32): the one key
resolved with an explicit absence check instead of `or`. -/
def useStackReferenceResolved (stored : Option Bool) : Bool :=
  stored.getD true

/-! ## Subnet CIDR derivation

`foundation/pulumi/__main__.py`, lines 61-65:
the program splits `vpc_cidr` on dots and substitutes the third and fourth
octets, producing `a.b.1.0/24` and `a.b.2.0/24` from a parent `a.b.c.d/p`. -/

/-- An IPv4 CIDR block given by its four dotted octets and suffix length. -/
structure Cidr where
  a : Nat
  b : Nat
  c : Nat
  d : Nat
  plen : Nat
deriving DecidableEq

/-- The 32-bit address denoted by four dotted octets. -/
def toAddr (a b c d : Nat) : Nat :=
  ((a * 256 + b) * 256 + c) * 256 + d

/-- A well-formed dotted-quad CIDR: every octet below 256, suffix length at
most 32. -/
def isValidCidr (B : Cidr) : Prop :=
  B.a < 256 ∧ B.b < 256 ∧ B.c < 256 ∧ B.d < 256 ∧ B.plen ≤ 32

/-- Address membership in a CIDR block: the address agrees with the block's
base address on the leading `plen` bits. -/
def memberOf (x : Nat) (B : Cidr) : Prop :=
  x / 2 ^ (32 - B.plen) = toAddr B.a B.b B.c B.d / 2 ^ (32 - B.plen)

instance (B : Cidr) : Decidable (isValidCidr B) :=
  inferInstanceAs (Decidable (_ ∧ _ ∧ _ ∧ _ ∧ _))

instance (x : Nat) (B : Cidr) : Decidable (memberOf x B) :=
  inferInstanceAs (Decidable (_ = _))

/-- `subnet_1_cidr = f"{parts[0]}.{parts[1]}.1.0/24"` (line 64). -/
def subnet1 (B : Cidr) : Cidr :=
  ⟨B.a, B.b, 1, 0, 24⟩

/-- `subnet_2_cidr = f"{parts[0]}.{parts[1]}.2.0/24"` (line 65). -/
def subnet2 (B : Cidr) : Cidr :=
  ⟨B.a, B.b, 2, 0, 24⟩

/-! ## Tier, names and selectors

`foundation/gitops/pulumi_deploy/__main__.py`, lines 62-80 and 177-182,
253-258.  The tier is derived from the namespace by Python substring
containment (`"rc" in namespace`); names are f-string templates over
`(service_name, tier)`. -/

/-- `tier = "rc" if "rc" in namespace else "production"` (line 68). -/
def tierOf (ns : String) : String :=
  if "rc".data <:+: ns.data then "rc" else "production"

/-- The six names derived from `(service_name, tier)`. -/
structure Names where
  deployment : String
  service : String
  ingress : String
  configmap : String
  hpa : String
  host : String
deriving DecidableEq

/-- Lines 73-80 of the gitops deployer: each name is an f-string template
suffixing the tier when `tier == "rc"`. -/
def deriveNames (service_name tier : String) : Names where
  deployment :=
    if tier = "rc" then service_name ++ "-" ++ tier else service_name
  service :=
    if tier = "rc" then service_name ++ "-" ++ tier ++ "-service"
    else service_name ++ "-service"
  ingress :=
    if tier = "rc" then service_name ++ "-" ++ tier ++ "-ingress"
    else service_name ++ "-ingress"
  configmap :=
    if tier = "rc" then service_name ++ "-" ++ tier ++ "-config"
    else service_name ++ "-config"
  hpa :=
    if tier = "rc" then service_name ++ "-" ++ tier ++ "-hpa"
    else service_name ++ "-hpa"
  host :=
    if tier = "rc" then service_name ++ "-" ++ tier ++ ".example.com"
    else service_name ++ ".example.com"

/-- Lines 180-182: `deployment_selector = {"app": service_name}`, and
`deployment_selector["tier"] = tier` when the tier is `"rc"`. -/
def deploymentSelector (service_name tier : String) : List (String × String) :=
  if tier = "rc" then [("app", service_name), ("tier", tier)]
  else [("app", service_name)]

/-- Lines 256-258: `service_selector = {"app": service_name}`, and
`service_selector["tier"] = tier` when the tier is `"rc"`. -/
def serviceSelector (service_name tier : String) : List (String × String) :=
  if tier = "rc" then [("app", service_name), ("tier", tier)]
  else [("app", service_name)]

/-- A derived name carries the tier suffix when it extends the base service
name with the `-rc` marker. -/
def carriesSuffix (base name : String) : Prop :=
  ∃ rest : List Char, name.data = base.data ++ "-rc".data ++ rest

/-! ## The declared Kubernetes resource set

A record-level embedding of the resources declared by the two workload
deployer programs.  Field values are transcribed from the Python keyword
arguments; `dependsOnNs` records the presence of `depends_on=[ns]` in the
resource options. -/

/-- An HTTP probe (`liveness_probe` / `readiness_probe`). -/
structure Probe where
  path : String
  port : Nat
  scheme : Option String
  initialDelaySeconds : Nat
  periodSeconds : Nat
  timeoutSeconds : Option Nat
  failureThreshold : Option Nat
deriving DecidableEq

/-- A `RollingUpdate` deployment strategy. -/
structure RollingUpdate where
  maxUnavailable : Nat
  maxSurge : Nat
deriving DecidableEq

/-- The single container of the pod template. -/
structure Container where
  name : String
  image : String
  containerPort : Nat
  portName : String
  envFromConfigMap : String
  cpuRequest : String
  memRequest : String
  cpuLimit : String
  memLimit : String
  liveness : Probe
  readiness : Probe
deriving DecidableEq

/-- A `Deployment` resource. -/
structure DeploymentRes where
  name : String
  nspace : String
  replicas : Option Int
  matchLabels : List (String × String)
  podLabels : List (String × String)
  container : Container
  strategy : Option RollingUpdate
  terminationGracePeriodSeconds : Option Nat
  dependsOnNs : Bool
deriving DecidableEq

/-- A `Service` resource. -/
structure ServiceRes where
  name : String
  nspace : String
  svcType : String
  selector : List (String × String)
  port : Nat
  targetPort : Nat
  dependsOnNs : Bool
deriving DecidableEq

/-- The optional `behavior.scale_down` block of an HPA. -/
structure HpaBehavior where
  stabilizationWindowSeconds : Nat
  policyKind : String
  policyValue : Nat
  policyPeriodSeconds : Nat
deriving DecidableEq

/-- A `HorizontalPodAutoscaler` resource. -/
structure HpaRes where
  name : String
  nspace : String
  targetName : String
  minReplicas : Int
  maxReplicas : Int
  cpuTarget : Int
  memoryTarget : Int
  behavior : Option HpaBehavior
  dependsOnNs : Bool
deriving DecidableEq

/-- An `Ingress` resource. -/
structure IngressRes where
  name : String
  nspace : String
  host : Option String
  path : String
  pathType : String
  backendService : String
  backendPort : Nat
  dependsOnNs : Bool
deriving DecidableEq

/-- A `ConfigMap` resource. -/
structure ConfigMapRes where
  name : String
  nspace : String
  data : List (String × String)
  dependsOnNs : Bool
deriving DecidableEq

/-- A `Namespace` resource. -/
structure NamespaceRes where
  name : String
deriving DecidableEq

/-- The set of resources declared by one workload-deployer run.  `ns` is
`none` when the run declares no namespace resource. -/
structure WorkloadStack where
  ns : Option NamespaceRes
  configMap : ConfigMapRes
  deployment : DeploymentRes
  service : ServiceRes
  hpa : HpaRes
  ingress : IngressRes
deriving DecidableEq

/-- The configuration keys consulted by the deployer programs; `none`
models an unset key. -/
structure AppConfig where
  nspace : Option String := none
  image_registry : Option String := none
  image_tag : Option String := none
  image_name : Option String := none
  replicas : Option Int := none
  min_replicas : Option Int := none
  max_replicas : Option Int := none
  cpu_target : Option Int := none
  memory_target : Option Int := none
  cpu_request : Option String := none
  memory_request : Option String := none
  cpu_limit : Option String := none
  memory_limit : Option String := none
  log_level : Option String := none
  database_host : Option String := none
  cache_ttl : Option String := none
  feature_new_ui : Option Bool := none
deriving DecidableEq

/-- Python `str(bool_value).lower()`. -/
def pyBoolStr (b : Bool) : String :=
  if b then "true" else "false"

/-- The resource set declared by `foundation/gitops/pulumi_deploy/__main__.py`
as a function of the configuration store.  Names, selectors, ports, probes,
autoscaler bounds and `depends_on` options are transcribed from lines
62-373 of that file; the deployment's `replicas` field is `none` because
line 192 is commented out so that the HPA owns the replica count. -/
def gitopsStack (cfg : AppConfig) : WorkloadStack :=
  let service_name := "day"
  let ns := orStr cfg.nspace "production"
  let tier := tierOf ns
  let names := deriveNames service_name tier
  let image_registry := orStr cfg.image_registry "your-registry"
  let image_tag := orStr cfg.image_tag "latest"
  let image_name := orStr cfg.image_name service_name
  let feature := orBool cfg.feature_new_ui true
  { ns := some ⟨ns⟩
    configMap :=
      { name := names.configmap
        nspace := ns
        data :=
          [ ("LOG_LEVEL", orStr cfg.log_level "INFO"),
            ("DATABASE_HOST",
              orStr cfg.database_host "postgres.production.svc.cluster.local"),
            ("CACHE_TTL", orStr cfg.cache_ttl "300"),
            ("FEATURE_NEW_UI", pyBoolStr feature) ]
        dependsOnNs := true }
    deployment :=
      { name := names.deployment
        nspace := ns
        replicas := none
        matchLabels := deploymentSelector service_name tier
        podLabels :=
          [("app", service_name), ("tier", tier), ("cluster", "trantor")]
        container :=
          { name := service_name
            image := image_registry ++ "/" ++ image_name ++ ":" ++ image_tag
            containerPort := 8001
            portName := "http"
            envFromConfigMap := names.configmap
            cpuRequest := orStr cfg.cpu_request "100m"
            memRequest := orStr cfg.memory_request "128Mi"
            cpuLimit := orStr cfg.cpu_limit "500m"
            memLimit := orStr cfg.memory_limit "512Mi"
            liveness := ⟨"/health", 8001, none, 30, 10, none, none⟩
            readiness := ⟨"/health", 8001, none, 5, 5, none, none⟩ }
        strategy := none
        terminationGracePeriodSeconds := none
        dependsOnNs := true }
    service :=
      { name := names.service
        nspace := ns
        svcType := "ClusterIP"
        selector := serviceSelector service_name tier
        port := 80
        targetPort := 8001
        dependsOnNs := true }
    hpa :=
      { name := names.hpa
        nspace := ns
        targetName := names.deployment
        minReplicas := orInt cfg.min_replicas 2
        maxReplicas := orInt cfg.max_replicas 10
        cpuTarget := orInt cfg.cpu_target 70
        memoryTarget := orInt cfg.memory_target 80
        behavior := none
        dependsOnNs := true }
    ingress :=
      { name := names.ingress
        nspace := ns
        host := some names.host
        path := "/"
        pathType := "Prefix"
        backendService := names.service
        backendPort := 80
        dependsOnNs := true } }

/-- The resource set declared by
`foundation/applications/day-service/pulumi/__main__.py` as a function of
the configuration store, transcribed from lines 26-311 of that file.  That
program declares no namespace resource and no `depends_on` options, keeps
an explicit `replicas` on the deployment, probes `/ready` for readiness on
port 8080, sets a rolling-update strategy and an HPA scale-down behavior,
and writes two extra config-map keys. -/
def dayServiceStack (cfg : AppConfig) : WorkloadStack :=
  let app_name := "day-service"
  let ns := orStr cfg.nspace "production"
  let image_registry := orStr cfg.image_registry "your-registry"
  let image_tag := orStr cfg.image_tag "latest"
  let feature := orBool cfg.feature_new_ui true
  { ns := none
    configMap :=
      { name := app_name ++ "-config"
        nspace := ns
        data :=
          [ ("LOG_LEVEL", orStr cfg.log_level "INFO"),
            ("DATABASE_HOST",
              orStr cfg.database_host "postgres.production.svc.cluster.local"),
            ("CACHE_TTL", orStr cfg.cache_ttl "300"),
            ("FEATURE_FLAG_NEW_UI", pyBoolStr feature),
            ("SERVICE_NAME", app_name),
            ("NAMESPACE", ns) ]
        dependsOnNs := false }
    deployment :=
      { name := app_name
        nspace := ns
        replicas := some (orInt cfg.replicas 3)
        matchLabels := [("app", app_name)]
        podLabels :=
          [ ("app", app_name), ("team", "day-team"),
            ("managed-by", "pulumi"), ("version", image_tag) ]
        container :=
          { name := app_name
            image := image_registry ++ "/" ++ app_name ++ ":" ++ image_tag
            containerPort := 8080
            portName := "http"
            envFromConfigMap := app_name ++ "-config"
            cpuRequest := orStr cfg.cpu_request "100m"
            memRequest := orStr cfg.memory_request "128Mi"
            cpuLimit := orStr cfg.cpu_limit "500m"
            memLimit := orStr cfg.memory_limit "512Mi"
            liveness := ⟨"/health", 8080, some "HTTP", 30, 10, some 5, some 3⟩
            readiness := ⟨"/ready", 8080, some "HTTP", 5, 5, some 3, some 3⟩ }
        strategy := some ⟨1, 1⟩
        terminationGracePeriodSeconds := some 30
        dependsOnNs := false }
    service :=
      { name := app_name
        nspace := ns
        svcType := "ClusterIP"
        selector := [("app", app_name)]
        port := 80
        targetPort := 8080
        dependsOnNs := false }
    hpa :=
      { name := app_name ++ "-hpa"
        nspace := ns
        targetName := app_name
        minReplicas := orInt cfg.min_replicas 2
        maxReplicas := orInt cfg.max_replicas 10
        cpuTarget := orInt cfg.cpu_target 70
        memoryTarget := orInt cfg.memory_target 80
        behavior := some ⟨300, "Percent", 50, 60⟩
        dependsOnNs := false }
    ingress :=
      { name := app_name
        nspace := ns
        host := none
        path := "/"
        pathType := "Prefix"
        backendService := app_name
        backendPort := 80
        dependsOnNs := false } }

/-! ## Stack Linker

Modelled from the spec: the `pulumi.StackReference` resolution engine is
not part of the repository source (only its callers in
`foundation/gitops/pulumi_deploy/__main__.py` and the two test scripts
are).  Spec section 4.6: `read_output(run_identifier, output_name) ->
value`, failing with `UnresolvedStackReferenceError` if the run or the
output does not exist, with no retry and no default substitution. -/

/-- The distinct unresolved-reference error of the Stack Linker. -/
inductive StackRefError where
  | unresolved (runId outputName : String)
deriving DecidableEq

/-- Modelled from the spec: cross-run output resolution over a registry of
runs, each exposing named outputs.  A missing run or a missing output
yields `StackRefError.unresolved`; a present output is returned as-is. -/
def read_output (registry : List (String × List (String × String)))
    (runId outputName : String) : Except StackRefError String :=
  match registry.lookup runId with
  | none => .error (.unresolved runId outputName)
  | some outs =>
    match outs.lookup outputName with
    | none => .error (.unresolved runId outputName)
    | some v => .ok v

/-- A configuration storing `min_replicas = 10`, `max_replicas = 2` and
`cpu_target = 150`: minimum above maximum, utilization target outside
`(0,100]`. -/
def invalidHpaConfig : AppConfig :=
  { min_replicas := some 10, max_replicas := some 2, cpu_target := some 150 }

/-- The valid scaling-policy configuration named by the claim:
`min = 2`, `max = 10`, CPU target `70`. -/
def validHpaConfig : AppConfig :=
  { min_replicas := some 2, max_replicas := some 10, cpu_target := some 70 }

/-- The end-to-end scenario configuration of the spec:
`{namespace: "production", replicas: 3, cpu_target: 70}`. -/
def endToEndConfig : AppConfig :=
  { nspace := some "production", replicas := some 3, cpu_target := some 70 }

/-- A configuration store with every key unset, fed identically to both
deployer variants. -/
def baseConfig : AppConfig := {}

/-- A demonstration run registry: the infrastructure run
`ry111/foundation/day` exposing its `kubeconfig` output. -/
def demoRegistry : List (String × List (String × String)) :=
  [("ry111/foundation/day", [("kubeconfig", "kubeconfig-data")])]

/-! ## Theorems -/

/-- C1: the claim says an explicitly stored configuration value always takes
precedence over the caller-supplied default, in particular a stored `false`
for `use_spot` / `feature_new_ui` resolves to `false` and a stored `0` for
`min_nodes` resolves to `0`.  The code's `config.get_xxx(key) or default`
idiom instead collapses every falsy stored value to the default: this
theorem evaluates the code's resolution at exactly those stored values.
The final conjunct shows that the same file resolves `use_stack_reference`
with an explicit absence check that does keep a stored `false`. -/
theorem or_idiom_drops_falsy_stored_values :
    useSpotResolved (some false) = true ∧
    featureNewUiResolved (some false) = true ∧
    minNodesResolved (some 0) = 1 ∧
    useStackReferenceResolved (some false) = false := by
  decide

/-- C2 counterexample: `10.0.0.0/24` is a well-formed parent block, yet the
first derived subnet `10.0.1.0/24` contains the address `10.0.1.0`, which
lies outside the parent block — so the derived subnets are not subsets of
every valid parent block. -/
theorem subnet_outside_small_parent_block :
    isValidCidr ⟨10, 0, 0, 0, 24⟩ ∧
    memberOf (toAddr 10 0 1 0) (subnet1 ⟨10, 0, 0, 0, 24⟩) ∧
    ¬ memberOf (toAddr 10 0 1 0) ⟨10, 0, 0, 0, 24⟩ := by
  decide

/-- C2 amended: for every parent block with octets below 256 and prefix
length at most 16, the two derived subnets `a.b.1.0/24` and `a.b.2.0/24`
are disjoint and each is a subset of the parent block. -/
theorem subnets_disjoint_and_within_parent (B : Cidr)
    (hc : B.c < 256) (hd : B.d < 256) (hp : B.plen ≤ 16) :
    (∀ x, memberOf x (subnet1 B) → memberOf x (subnet2 B) → False) ∧
    (∀ x, memberOf x (subnet1 B) → memberOf x B) ∧
    (∀ x, memberOf x (subnet2 B) → memberOf x B) := by
  obtain ⟨a, b, c, d, p⟩ := B
  simp only at hc hd hp
  have hsplit : (2 : Nat) ^ (32 - p) = 2 ^ 16 * 2 ^ (16 - p) := by
    rw [← pow_add]
    congr 1
    omega
  refine ⟨?_, ?_, ?_⟩
  · intro x h1 h2
    simp only [memberOf, subnet1, subnet2, toAddr] at h1 h2
    norm_num at h1 h2
    omega
  · intro x h1
    simp only [memberOf, subnet1, toAddr] at h1 ⊢
    have hx : x / 256 = (a * 256 + b) * 256 + 1 := by
      norm_num at h1
      omega
    have hx16 : x / 2 ^ 16 = a * 256 + b := by
      have hdd : x / 2 ^ 16 = x / 256 / 256 := by
        rw [Nat.div_div_eq_div_mul]
        norm_num
      rw [hdd, hx]
      omega
    have ht16 : (((a * 256 + b) * 256 + c) * 256 + d) / 2 ^ 16 = a * 256 + b := by
      have h16 : (2 : Nat) ^ 16 = 65536 := by norm_num
      rw [h16]
      omega
    rw [hsplit, ← Nat.div_div_eq_div_mul, ← Nat.div_div_eq_div_mul, hx16, ht16]
  · intro x h2
    simp only [memberOf, subnet2, toAddr] at h2 ⊢
    have hx : x / 256 = (a * 256 + b) * 256 + 2 := by
      norm_num at h2
      omega
    have hx16 : x / 2 ^ 16 = a * 256 + b := by
      have hdd : x / 2 ^ 16 = x / 256 / 256 := by
        rw [Nat.div_div_eq_div_mul]
        norm_num
      rw [hdd, hx]
      omega
    have ht16 : (((a * 256 + b) * 256 + c) * 256 + d) / 2 ^ 16 = a * 256 + b := by
      have h16 : (2 : Nat) ^ 16 = 65536 := by norm_num
      rw [h16]
      omega
    rw [hsplit, ← Nat.div_div_eq_div_mul, ← Nat.div_div_eq_div_mul, hx16, ht16]

/-- C2 amended, witness: the address `10.0.1.7` of the first derived subnet
of `10.0.0.0/16` lies inside the parent block. -/
theorem subnets_disjoint_and_within_parent_witness :
    memberOf (toAddr 10 0 1 7) (subnet1 ⟨10, 0, 0, 0, 16⟩) ∧
    memberOf (toAddr 10 0 1 7) (⟨10, 0, 0, 0, 16⟩ : Cidr) := by
  refine ⟨by decide, ?_⟩
  exact (subnets_disjoint_and_within_parent ⟨10, 0, 0, 0, 16⟩ (by decide)
    (by decide) (by decide)).2.1 _ (by decide)

/-- C3 counterexample: with stored `min_replicas = 10`, `max_replicas = 2`
and `cpu_target = 150`, the deployer neither rejects nor flags the scaling
policy — it declares the autoscaler carrying exactly those invalid values,
so nothing stops the policy before submission. -/
theorem invalid_hpa_config_submitted_unflagged :
    (gitopsStack invalidHpaConfig).hpa.minReplicas = 10 ∧
    (gitopsStack invalidHpaConfig).hpa.maxReplicas = 2 ∧
    (gitopsStack invalidHpaConfig).hpa.cpuTarget = 150 :=
  ⟨rfl, rfl, rfl⟩

/-- C3 amended: the deployer performs no local validation of the scaling
policy: for every configuration the declared autoscaler simply carries the
resolved minimum, maximum and utilization targets, whatever they are; in
particular the valid policy `min = 2`, `max = 10`, CPU target `70` is
declared with exactly those values. -/
theorem hpa_config_passed_through_without_validation :
    (∀ cfg : AppConfig,
      (gitopsStack cfg).hpa.minReplicas = orInt cfg.min_replicas 2 ∧
      (gitopsStack cfg).hpa.maxReplicas = orInt cfg.max_replicas 10 ∧
      (gitopsStack cfg).hpa.cpuTarget = orInt cfg.cpu_target 70 ∧
      (gitopsStack cfg).hpa.memoryTarget = orInt cfg.memory_target 80) ∧
    ((gitopsStack validHpaConfig).hpa.minReplicas = 2 ∧
     (gitopsStack validHpaConfig).hpa.maxReplicas = 10 ∧
     (gitopsStack validHpaConfig).hpa.cpuTarget = 70) :=
  ⟨fun _ => ⟨rfl, rfl, rfl, rfl⟩, rfl, rfl, rfl⟩

/-- C4: for every service name, with the non-default `"rc"` tier each of
the six derived names (deployment, service, ingress, config, autoscaler,
hostname) carries the `-rc` tier suffix right after the service name, and
with the default `"production"` tier none of them does. -/
theorem tier_suffix_on_derived_names (s : String) :
    (carriesSuffix s (deriveNames s "rc").deployment ∧
     carriesSuffix s (deriveNames s "rc").service ∧
     carriesSuffix s (deriveNames s "rc").ingress ∧
     carriesSuffix s (deriveNames s "rc").configmap ∧
     carriesSuffix s (deriveNames s "rc").hpa ∧
     carriesSuffix s (deriveNames s "rc").host) ∧
    (¬ carriesSuffix s (deriveNames s "production").deployment ∧
     ¬ carriesSuffix s (deriveNames s "production").service ∧
     ¬ carriesSuffix s (deriveNames s "production").ingress ∧
     ¬ carriesSuffix s (deriveNames s "production").configmap ∧
     ¬ carriesSuffix s (deriveNames s "production").hpa ∧
     ¬ carriesSuffix s (deriveNames s "production").host) := by
  have hrc : deriveNames s "rc" =
      ⟨s ++ "-" ++ "rc", s ++ "-" ++ "rc" ++ "-service",
       s ++ "-" ++ "rc" ++ "-ingress", s ++ "-" ++ "rc" ++ "-config",
       s ++ "-" ++ "rc" ++ "-hpa", s ++ "-" ++ "rc" ++ ".example.com"⟩ := rfl
  have hprod : deriveNames s "production" =
      ⟨s, s ++ "-service", s ++ "-ingress", s ++ "-config",
       s ++ "-hpa", s ++ ".example.com"⟩ := rfl
  rw [hrc, hprod]
  constructor
  · refine ⟨⟨[], ?_⟩, ⟨"-service".data, ?_⟩, ⟨"-ingress".data, ?_⟩,
      ⟨"-config".data, ?_⟩, ⟨"-hpa".data, ?_⟩, ⟨".example.com".data, ?_⟩⟩
    · show s.data ++ ['-'] ++ ['r', 'c'] = s.data ++ ['-', 'r', 'c'] ++ ([] : List Char)
      simp
    all_goals
      show s.data ++ ['-'] ++ ['r', 'c'] ++ _ = s.data ++ ['-', 'r', 'c'] ++ _
      all_goals simp
  · refine ⟨?_, ?_, ?_, ?_, ?_, ?_⟩
    · rintro ⟨rest, h⟩
      have h' := congrArg List.length h
      simp [List.length_append] at h'
    all_goals
      rintro ⟨rest, h⟩
      rw [String.data_append, List.append_assoc] at h
      have h2 := List.append_cancel_left h
      injection h2 with h3 h4
      injection h4 with h5 h6
      exact absurd h5 (by decide)

/-- C5: name and selector derivation is deterministic and pure — two calls
with identical `(service, tier)` inputs agree — and for every tier the
match-selector labels of the deployment equal the selector labels of the
service that targets it, both at the level of the two selector derivations
and on the resources declared by the gitops deployer. -/
theorem derive_names_pure_and_selectors_agree :
    (∀ s t : String,
      deriveNames s t = deriveNames s t ∧
      deploymentSelector s t = serviceSelector s t) ∧
    (∀ cfg : AppConfig,
      (gitopsStack cfg).deployment.matchLabels = (gitopsStack cfg).service.selector) :=
  ⟨fun _ _ => ⟨rfl, rfl⟩, fun _ => rfl⟩

/-- C6 counterexample: in the end-to-end scenario the service resource and
the ingress backend are named `day-service`, not `day` as the claim
states. -/
theorem end_to_end_service_not_named_day :
    (gitopsStack endToEndConfig).service.name = "day-service" ∧
    (gitopsStack endToEndConfig).service.name ≠ "day" ∧
    (gitopsStack endToEndConfig).ingress.backendService ≠ "day" := by
  decide

/-- C6 amended: with `{namespace: "production", replicas: 3, cpu_target:
70}`, the deployer declares a process group named `day` with no replica
count of its own, a service named `day-service` mapping port 80 to
container port 8001, an autoscaler targeting `day` bounded by min 2 and
max 10 at 70% CPU and 80% memory, and a routing rule forwarding path `/`
to service `day-service` on port 80. -/
theorem end_to_end_scenario_resources :
    (gitopsStack endToEndConfig).deployment.name = "day" ∧
    (gitopsStack endToEndConfig).deployment.replicas = none ∧
    (gitopsStack endToEndConfig).service.name = "day-service" ∧
    (gitopsStack endToEndConfig).service.port = 80 ∧
    (gitopsStack endToEndConfig).service.targetPort = 8001 ∧
    (gitopsStack endToEndConfig).hpa.targetName = "day" ∧
    (gitopsStack endToEndConfig).hpa.minReplicas = 2 ∧
    (gitopsStack endToEndConfig).hpa.maxReplicas = 10 ∧
    (gitopsStack endToEndConfig).hpa.cpuTarget = 70 ∧
    (gitopsStack endToEndConfig).hpa.memoryTarget = 80 ∧
    (gitopsStack endToEndConfig).ingress.path = "/" ∧
    (gitopsStack endToEndConfig).ingress.pathType = "Prefix" ∧
    (gitopsStack endToEndConfig).ingress.backendService = "day-service" ∧
    (gitopsStack endToEndConfig).ingress.backendPort = 80 := by
  decide

/-- C7: resolving an output of a run that does not exist, or an output name
the run does not expose, fails with the distinct unresolved-reference
error — no retry, no default value substituted. -/
theorem unresolved_stack_reference_fails
    (registry : List (String × List (String × String)))
    (runId outputName : String)
    (h : registry.lookup runId = none ∨
      ∃ outs, registry.lookup runId = some outs ∧
        outs.lookup outputName = none) :
    read_output registry runId outputName =
      .error (.unresolved runId outputName) := by
  rcases h with h | ⟨outs, h1, h2⟩
  · simp [read_output, h]
  · simp [read_output, h1, h2]

/-- C7 witness: reading `kubeconfig` from a run identifier absent from the
registry yields the unresolved-reference error. -/
theorem unresolved_stack_reference_fails_witness :
    read_output demoRegistry "ry111/foundation/nonexistent" "kubeconfig" =
      .error (.unresolved "ry111/foundation/nonexistent" "kubeconfig") :=
  unresolved_stack_reference_fails demoRegistry
    "ry111/foundation/nonexistent" "kubeconfig" (Or.inl rfl)

/-- C8 counterexample: fed the identical (empty) configuration store, the
two deployer variants disagree on container port (8001 vs 8080), readiness
probe path (`/health` vs `/ready`), replica handling (absent vs 3),
rolling-update strategy (unset vs bounded), namespace handling (declared
vs not), autoscaler behavior (unset vs scale-down stabilization) and
config-map keys — refuting that they differ only in naming and
selectors. -/
theorem deployer_variants_differ_beyond_naming :
    ((gitopsStack baseConfig).deployment.container.containerPort = 8001 ∧
     (dayServiceStack baseConfig).deployment.container.containerPort = 8080) ∧
    ((gitopsStack baseConfig).deployment.container.readiness.path = "/health" ∧
     (dayServiceStack baseConfig).deployment.container.readiness.path = "/ready") ∧
    ((gitopsStack baseConfig).deployment.replicas = none ∧
     (dayServiceStack baseConfig).deployment.replicas = some 3) ∧
    ((gitopsStack baseConfig).deployment.strategy = none ∧
     (dayServiceStack baseConfig).deployment.strategy = some ⟨1, 1⟩) ∧
    ((gitopsStack baseConfig).ns.isSome = true ∧
     (dayServiceStack baseConfig).ns = none) ∧
    ((gitopsStack baseConfig).hpa.behavior = none ∧
     (dayServiceStack baseConfig).hpa.behavior = some ⟨300, "Percent", 50, 60⟩) ∧
    ((gitopsStack baseConfig).configMap.data.map Prod.fst =
       ["LOG_LEVEL", "DATABASE_HOST", "CACHE_TTL", "FEATURE_NEW_UI"] ∧
     (dayServiceStack baseConfig).configMap.data.map Prod.fst =
       ["LOG_LEVEL", "DATABASE_HOST", "CACHE_TTL", "FEATURE_FLAG_NEW_UI",
        "SERVICE_NAME", "NAMESPACE"]) := by
  decide

/-- C8 amended: for every configuration the two variants agree on the
service type and port mapping, the autoscaler bounds and utilization
targets, the liveness probe path and the resource requests and limits, and
the ingress path and backend port; but they differ — identically for every
configuration — in container port, readiness probe path, replica handling,
rolling-update strategy, namespace handling, autoscaler behavior and
config-map keys. -/
theorem deployer_variants_agreements_and_differences (cfg : AppConfig) :
    ((gitopsStack cfg).service.svcType = (dayServiceStack cfg).service.svcType ∧
     (gitopsStack cfg).service.port = (dayServiceStack cfg).service.port ∧
     (gitopsStack cfg).hpa.minReplicas = (dayServiceStack cfg).hpa.minReplicas ∧
     (gitopsStack cfg).hpa.maxReplicas = (dayServiceStack cfg).hpa.maxReplicas ∧
     (gitopsStack cfg).hpa.cpuTarget = (dayServiceStack cfg).hpa.cpuTarget ∧
     (gitopsStack cfg).hpa.memoryTarget = (dayServiceStack cfg).hpa.memoryTarget ∧
     (gitopsStack cfg).deployment.container.liveness.path =
       (dayServiceStack cfg).deployment.container.liveness.path ∧
     (gitopsStack cfg).deployment.container.cpuRequest =
       (dayServiceStack cfg).deployment.container.cpuRequest ∧
     (gitopsStack cfg).deployment.container.memRequest =
       (dayServiceStack cfg).deployment.container.memRequest ∧
     (gitopsStack cfg).deployment.container.cpuLimit =
       (dayServiceStack cfg).deployment.container.cpuLimit ∧
     (gitopsStack cfg).deployment.container.memLimit =
       (dayServiceStack cfg).deployment.container.memLimit ∧
     (gitopsStack cfg).ingress.path = (dayServiceStack cfg).ingress.path ∧
     (gitopsStack cfg).ingress.backendPort =
       (dayServiceStack cfg).ingress.backendPort) ∧
    ((gitopsStack cfg).deployment.container.containerPort = 8001 ∧
     (dayServiceStack cfg).deployment.container.containerPort = 8080 ∧
     (gitopsStack cfg).deployment.container.readiness.path = "/health" ∧
     (dayServiceStack cfg).deployment.container.readiness.path = "/ready" ∧
     (gitopsStack cfg).deployment.replicas = none ∧
     (dayServiceStack cfg).deployment.replicas = some (orInt cfg.replicas 3) ∧
     (gitopsStack cfg).deployment.strategy = none ∧
     (dayServiceStack cfg).deployment.strategy = some ⟨1, 1⟩ ∧
     (gitopsStack cfg).ns.isSome = true ∧
     (dayServiceStack cfg).ns = none ∧
     (gitopsStack cfg).hpa.behavior = none ∧
     (dayServiceStack cfg).hpa.behavior = some ⟨300, "Percent", 50, 60⟩ ∧
     (gitopsStack cfg).configMap.data.map Prod.fst =
       ["LOG_LEVEL", "DATABASE_HOST", "CACHE_TTL", "FEATURE_NEW_UI"] ∧
     (dayServiceStack cfg).configMap.data.map Prod.fst =
       ["LOG_LEVEL", "DATABASE_HOST", "CACHE_TTL", "FEATURE_FLAG_NEW_UI",
        "SERVICE_NAME", "NAMESPACE"]) := by
  repeat' apply And.intro
  all_goals rfl

/-- C9 counterexample: the day-service deployer variant run declares no
namespace resource at all, and its config map declares no dependency on a
namespace — so it is not the case that every workload-deployer run
declares a namespace that all namespaced resources depend on. -/
theorem day_service_variant_lacks_namespace_dependency :
    (dayServiceStack baseConfig).ns = none ∧
    (dayServiceStack baseConfig).configMap.dependsOnNs = false := by
  decide

/-- C9 amended: the gitops deployer run declares a namespace resource and
all five namespaced resources (config map, deployment, service,
autoscaler, ingress) declare an explicit dependency on it; the day-service
variant run declares no namespace resource and none of its resources
declares such a dependency. -/
theorem gitops_resources_depend_on_namespace (cfg : AppConfig) :
    (gitopsStack cfg).ns = some ⟨orStr cfg.nspace "production"⟩ ∧
    (gitopsStack cfg).configMap.dependsOnNs = true ∧
    (gitopsStack cfg).deployment.dependsOnNs = true ∧
    (gitopsStack cfg).service.dependsOnNs = true ∧
    (gitopsStack cfg).hpa.dependsOnNs = true ∧
    (gitopsStack cfg).ingress.dependsOnNs = true ∧
    (dayServiceStack cfg).ns = none ∧
    (dayServiceStack cfg).configMap.dependsOnNs = false ∧
    (dayServiceStack cfg).deployment.dependsOnNs = false ∧
    (dayServiceStack cfg).service.dependsOnNs = false ∧
    (dayServiceStack cfg).hpa.dependsOnNs = false ∧
    (dayServiceStack cfg).ingress.dependsOnNs = false := by
  repeat' apply And.intro
  all_goals rfl

/-- C10: the tier is derived by substring containment — it is the
release-candidate tier `"rc"` exactly when the characters `rc` occur
anywhere in the namespace, and the production tier exactly otherwise; in
particular the namespaces `search` and `orchard` are treated as
release-candidate, receiving the suffixed deployment name and the
tier-bearing selector. -/
theorem tier_from_namespace_substring (ns : String) :
    (tierOf ns = "rc" ↔ "rc".data <:+: ns.data) ∧
    (tierOf ns = "production" ↔ ¬ "rc".data <:+: ns.data) ∧
    tierOf "search" = "rc" ∧
    tierOf "orchard" = "rc" ∧
    (gitopsStack { nspace := some "search" }).deployment.name = "day-rc" ∧
    (gitopsStack { nspace := some "search" }).deployment.matchLabels =
      [("app", "day"), ("tier", "rc")] := by
  refine ⟨?_, ?_, by decide, by decide, by decide, by decide⟩ <;>
    by_cases h : "rc".data <:+: ns.data <;> simp [tierOf, h]

end K8sExploration
